import Mathlib

/-!
Verification development for the WeChatAI provider-abstraction core.

The definitions below are a shallow embedding of the Python sources:
  src/core/ai_types.py     (data model)
  src/core/ai_manager.py   (ModernAIManager: history + orchestration)
  src/core/ai_client.py    (GeminiClient emulated streaming)
  src/core/ai_config.py    (settings serialization round trip)
  src/core/model_fetcher.py (ModelFetcher + ModelCache)
  src/ui/settings_dialog.py (ModelFetchThread.run: cache-composed model fetch)

External effects (network calls, wall-clock time) are passed in as explicit
parameters: the outcome of a client call is an `Except`/`Option` value, the
current time is a `Nat`, and an async generator consumed partially is modelled
by the number of items the consumer pulled.  The `timestamp` and `tokens`
fields of Python's ChatMessage are omitted: they hold wall-clock values that
no verified property inspects.
-/

namespace WeChatAI

/-- Python list slicing `xs[i:]` for an arbitrary integer index `i`:
a nonnegative `i` drops the first `i` elements (clamped at the end);
a negative `i` keeps the last `-i` elements (clamped at the start).
In particular `xs[-0:]` is `xs[0:]`, the whole list — the quirk behind
the `history[-(max_length):]` expression in `ModernAIManager.add_message`. -/
def pySliceFrom (i : Int) (xs : List α) : List α :=
  if 0 ≤ i then xs.drop i.toNat
  else xs.drop (xs.length - (-i).toNat)

/-- Python `str.split()` with no argument: split on whitespace runs,
discarding empty pieces. -/
def pySplitWs (s : String) : List String :=
  (s.split Char.isWhitespace).filter (fun w => w ≠ "")

/-- Python `pat in s` substring containment (used by
`ModelFetcher.detect_service_type`). -/
def strContains (s pat : String) : Bool :=
  decide (List.IsInfix pat.toList s.toList)

/-- Association-list lookup, modelling Python `dict.get` for the
string-keyed dictionaries of the configuration layer. -/
def alistFind (k : String) : List (String × α) → Option α
  | [] => none
  | p :: rest => if p.1 = k then some p.2 else alistFind k rest

/-- src/core/ai_types.py `AIProvider`: the closed provider enumeration. -/
inductive AIProvider
  | deepseek
  | gemini
  | qianwen
  | openai
  | newapi
deriving DecidableEq, Repr

/-- The `.value` string of each `AIProvider` enum member. -/
def AIProvider.value : AIProvider → String
  | .deepseek => "deepseek"
  | .gemini => "gemini"
  | .qianwen => "qianwen"
  | .openai => "openai"
  | .newapi => "newapi"

/-- Python `AIProvider(value)` enum construction: `some` member on a valid
value string, `none` where Python would raise `ValueError`. -/
def AIProvider.fromValue : String → Option AIProvider
  | "deepseek" => some .deepseek
  | "gemini" => some .gemini
  | "qianwen" => some .qianwen
  | "openai" => some .openai
  | "newapi" => some .newapi
  | _ => none

/-- src/core/ai_types.py `ChatMessage` (timestamp/tokens omitted, see header). -/
structure ChatMessage where
  role : String
  content : String
deriving DecidableEq, Repr

/-- src/core/ai_types.py `AIProviderConfig`.  `temperature` is embedded as a
rational: the code never computes with it, it is only stored and copied. -/
structure AIProviderConfig where
  enabled : Bool := false
  api_key : String := ""
  base_url : String := ""
  model : String := ""
  temperature : Rat := 0.7
  max_tokens : Int := 2000
  timeout : Int := 30
  proxy : Option (List (String × String)) := none
  custom_headers : Option (List (String × String)) := none
deriving DecidableEq, Repr

/-- src/core/ai_types.py `AISettings`.  `providers` is the insertion-ordered
string-keyed dictionary, embedded as an association list. -/
structure AISettings where
  enabled : Bool := true
  default_provider : AIProvider := .deepseek
  stream_enabled : Bool := true
  system_prompt : String := "你是AI助手，名字叫VictorAI"
  max_history_length : Int := 10
  auto_clear_history : Bool := false
  providers : List (String × AIProviderConfig) := []
deriving DecidableEq, Repr

/-- The five provider configurations seeded by `AISettings.__post_init__`. -/
def defaultProviders : List (String × AIProviderConfig) :=
  [("deepseek",
    ⟨true, "", "https://api.deepseek.com/v1", "deepseek-chat", 0.7, 2000, 30, none, none⟩),
   ("gemini",
    ⟨false, "", "https://generativelanguage.googleapis.com/v1beta", "gemini-1.5-flash",
     0.7, 2000, 30, none, none⟩),
   ("qianwen",
    ⟨false, "", "https://dashscope.aliyuncs.com/compatible-mode/v1", "qwen-turbo",
     0.7, 2000, 30, none, none⟩),
   ("openai",
    ⟨false, "", "https://api.openai.com/v1", "gpt-3.5-turbo", 0.7, 2000, 30, none, none⟩),
   ("newapi",
    ⟨false, "", "", "gpt-3.5-turbo", 0.7, 2000, 30, none, none⟩)]

/-- A fresh `AISettings()` as produced by the dataclass defaults plus
`__post_init__`. -/
def defaultAISettings : AISettings :=
  ⟨true, .deepseek, true, "你是AI助手，名字叫VictorAI", 10, false, defaultProviders⟩

/-- `ModernAIManager.chat_histories`: group name → that group's history,
`none` for a group never yet accessed. -/
def ManagerState := String → Option (List ChatMessage)

/-- src/core/ai_manager.py `ModernAIManager.get_chat_history`: lazily
initialize an absent group with one system message synthesized from the
current global system prompt; return the history and the updated state. -/
def get_chat_history (s : AISettings) (st : ManagerState) (group : String) :
    List ChatMessage × ManagerState :=
  match st group with
  | some h => (h, st)
  | none =>
      let h := [ChatMessage.mk "system" s.system_prompt]
      (h, fun g => if g = group then some h else st g)

/-- The list-level body of `ModernAIManager.add_message`: append, then trim
when the length exceeds `max_history_length + 1`, keeping `history[0]` plus
`history[-(max_length):]` (the latter with exact Python slice semantics). -/
def trim_append (L : Int) (history : List ChatMessage) (m : ChatMessage) :
    List ChatMessage :=
  if (L + 1 : Int) < ((history ++ [m]).length : Int) then
    (history ++ [m]).headD m :: pySliceFrom (-L) (history ++ [m])
  else history ++ [m]

/-- src/core/ai_manager.py `ModernAIManager.add_message`. -/
def add_message (s : AISettings) (st : ManagerState) (group role content : String) :
    ManagerState :=
  let hs := get_chat_history s st group
  let h2 := trim_append s.max_history_length hs.1 (ChatMessage.mk role content)
  fun g => if g = group then some h2 else hs.2 g

/-- Provider resolution at the top of `get_ai_response` /
`get_ai_response_stream`: `if not provider: provider = default_provider.value`
(both `None` and the empty string are falsy). -/
def resolve_provider (s : AISettings) (provider : Option String) : String :=
  match provider with
  | none => s.default_provider.value
  | some p => if p = "" then s.default_provider.value else p

/-- src/core/ai_manager.py `ModernAIManager.get_ai_response`.
`outcome` stands for the underlying client call:
`Except.error e` for a raised exception with message `e`,
`Except.ok none` for a response without a usable first choice,
`Except.ok (some content)` for a truthy first-choice content.
Returns the reply string and the manager state after the call. -/
def get_ai_response (s : AISettings) (st : ManagerState) (message group : String)
    (provider : Option String) (outcome : Except String (Option String)) :
    String × ManagerState :=
  let p := resolve_provider s provider
  match alistFind p s.providers with
  | none => ("提供商 " ++ p ++ " 未配置或未启用", st)
  | some cfg =>
      if cfg.enabled = false ∨ cfg.api_key = "" then
        ("提供商 " ++ p ++ " 未配置或未启用", st)
      else
        let st1 := add_message s st group "user" message
        match outcome with
        | .error e => ("AI调用出错: " ++ e, st1)
        | .ok none => ("AI 没有返回有效结果，请稍后再试", st1)
        | .ok (some content) =>
            let reply := content.trim
            (reply, add_message s st1 group "assistant" reply)

/-- src/core/ai_manager.py `ModernAIManager.get_ai_response_stream`, run
against a consumer that performs `consumed` pulls on the async generator.
The client stream yields `chunks` in order and then either finishes normally
(`streamErr = none`) or raises (`streamErr = some e`).  Returns the fragments
the consumer received and the manager state once the consumer stops pulling:
the generator body only runs up to its `consumed`-th suspension point, so the
post-loop history append executes only when the consumer pulls past the last
fragment. -/
def get_ai_response_stream (s : AISettings) (st : ManagerState)
    (message group : String) (provider : Option String)
    (chunks : List String) (streamErr : Option String) (consumed : Nat) :
    List String × ManagerState :=
  if consumed = 0 then ([], st)
  else
    let p := resolve_provider s provider
    match alistFind p s.providers with
    | none => (["提供商 " ++ p ++ " 未配置或未启用"], st)
    | some cfg =>
        if cfg.enabled = false ∨ cfg.api_key = "" then
          (["提供商 " ++ p ++ " 未配置或未启用"], st)
        else
          let st1 := add_message s st group "user" message
          if consumed ≤ chunks.length then
            (chunks.take consumed, st1)
          else
            match streamErr with
            | some e => (chunks ++ ["AI调用出错: " ++ e], st1)
            | none =>
                let full := String.join chunks
                if full = "" then (chunks, st1)
                else (chunks, add_message s st1 group "assistant" full)

/-- src/core/model_fetcher.py `ModelFetcher.get_default_models`: the static
per-service default model lists; unknown service types fall back to the
"openai" list (the `dict.get` default). -/
def get_default_models (service_type : String) : List String :=
  if service_type = "openai" then
    ["gpt-3.5-turbo", "gpt-4", "gpt-4-turbo", "gpt-4o", "gpt-4o-mini"]
  else if service_type = "deepseek" then
    ["deepseek-chat", "deepseek-coder"]
  else if service_type = "qianwen" then
    ["qwen-turbo", "qwen-plus", "qwen-max", "qwen-long"]
  else if service_type = "gemini" then
    ["gemini-1.5-flash", "gemini-1.5-pro", "gemini-pro"]
  else if service_type = "claude" then
    ["claude-3-haiku-20240307", "claude-3-sonnet-20240229",
     "claude-3-opus-20240229", "claude-3-5-sonnet-20241022"]
  else
    ["gpt-3.5-turbo", "gpt-4", "gpt-4-turbo", "gpt-4o", "gpt-4o-mini"]

/-- src/core/model_fetcher.py `ModelFetcher.detect_service_type`: classify a
base URL by an ordered first-match substring rule set over its lowercasing,
defaulting to "openai". -/
def detect_service_type (base_url : String) : String :=
  let u := base_url.toLower
  if strContains u "deepseek" then "deepseek"
  else if strContains u "dashscope.aliyuncs.com" then "qianwen"
  else if strContains u "generativelanguage.googleapis.com" then "gemini"
  else if strContains u "api.openai.com" then "openai"
  else if strContains u "claude" || strContains u "anthropic" then "claude"
  else "openai"

/-- src/core/model_fetcher.py `ModelFetcher.get_models_with_fallback`.
`fetchResult` is the outcome of `fetch_models_sync` (that helper catches all
of its own exceptions and returns `[]` on any failure, so a list parameter
covers every network outcome); `_timeout` is forwarded to the network layer
and never inspected here. -/
def get_models_with_fallback (api_key base_url : String) (_timeout : Nat)
    (fetchResult : List String) : List String :=
  if api_key = "" ∨ base_url = "" then
    get_default_models (if base_url = "" then "openai" else detect_service_type base_url)
  else if fetchResult ≠ [] then fetchResult
  else get_default_models (detect_service_type base_url)

/-- src/core/model_fetcher.py `ModelCache._cache`: cache key → stored models
and the `time.time()` at which they were stored. -/
def ModelCacheMap := String → Option (List String × Nat)

/-- src/core/model_fetcher.py `ModelCache.get_cache_key`: first 8 characters
of the credential (or all of it when shorter) joined with the base URL. -/
def get_cache_key (api_key base_url : String) : String :=
  (if 8 ≤ api_key.length then api_key.take 8 else api_key) ++ "_" ++ base_url

/-- src/core/model_fetcher.py `ModelCache.get_cached_models` at time `now`:
a stored entry is returned while its age is below the 300-second timeout. -/
def get_cached_models (c : ModelCacheMap) (now : Nat) (api_key base_url : String) :
    Option (List String) :=
  match c (get_cache_key api_key base_url) with
  | some entry => if now - entry.2 < 300 then some entry.1 else none
  | none => none

/-- src/core/model_fetcher.py `ModelCache.cache_models` at time `now`. -/
def cache_models (c : ModelCacheMap) (now : Nat) (api_key base_url : String)
    (models : List String) : ModelCacheMap :=
  fun k => if k = get_cache_key api_key base_url then some (models, now) else c k

/-- The fetch arm of src/ui/settings_dialog.py `ModelFetchThread.run`:
`get_models_with_fallback`, then cache the result when it is non-empty. -/
def fetch_models_live (c : ModelCacheMap) (now : Nat) (api_key base_url : String)
    (fetchResult : List String) : List String × ModelCacheMap :=
  let models := get_models_with_fallback api_key base_url 10 fetchResult
  if models = [] then (models, c)
  else (models, cache_models c now api_key base_url models)

/-- src/ui/settings_dialog.py `ModelFetchThread.run`: the repository's
model-discovery flow composing `ModelCache` with `get_models_with_fallback` —
serve a truthy cached entry, otherwise fetch with fallback and store the
(always truthy) result. -/
def fetch_models_job (c : ModelCacheMap) (now : Nat) (api_key base_url : String)
    (fetchResult : List String) : List String × ModelCacheMap :=
  match get_cached_models c now api_key base_url with
  | some ms =>
      if ms = [] then fetch_models_live c now api_key base_url fetchResult
      else (ms, c)
  | none => fetch_models_live c now api_key base_url fetchResult

/-- One observable step of `GeminiClient.stream_chat_completion`: a call of
the caller-supplied `on_chunk` callback, or a `yield` to the consumer. -/
inductive StreamEvent
  | callback (s : String)
  | yielded (s : String)
deriving DecidableEq, Repr

/-- The fragment loop of src/core/ai_client.py
`GeminiClient.stream_chat_completion`: at absolute word index `i` out of
`total` words, emit `word + " "` except at the last index, calling the
callback and then yielding, per word. -/
def gemini_stream_loop (words : List String) (i total : Nat) : List StreamEvent :=
  match words with
  | [] => []
  | w :: rest =>
      let chunk := w ++ (if i < total - 1 then " " else "")
      .callback chunk :: .yielded chunk :: gemini_stream_loop rest (i + 1) total

/-- src/core/ai_client.py `GeminiClient.stream_chat_completion` applied to the
full completion text obtained first: the ordered event trace of callback
invocations and yields over `content.split()`. -/
def gemini_stream_events (content : String) : List StreamEvent :=
  gemini_stream_loop (pySplitWs content) 0 (pySplitWs content).length

/-- Modelled from the spec wording of the emulated `streamChat` fragments:
each whitespace-split word in order, with a single trailing space appended to
every word except the last. -/
def specStreamFragsAux : List String → List String
  | [] => []
  | [w] => [w]
  | w :: rest => (w ++ " ") :: specStreamFragsAux rest

/-- The spec-side fragment sequence for the divergent variant's `streamChat`. -/
def specStreamFragments (content : String) : List String :=
  specStreamFragsAux (pySplitWs content)

/-- The persisted per-provider object written by
src/core/ai_config.py `AIConfigManager._serialize_settings`. -/
structure ProviderDoc where
  enabled : Bool
  api_key : String
  base_url : String
  model : String
  temperature : Rat
  max_tokens : Int
  timeout : Int
  proxy : Option (List (String × String))
  custom_headers : Option (List (String × String))
deriving DecidableEq, Repr

/-- The persisted top-level document written by `_serialize_settings`. -/
structure SettingsDoc where
  enabled : Bool
  default_provider : String
  stream_enabled : Bool
  system_prompt : String
  max_history_length : Int
  auto_clear_history : Bool
  providers : List (String × ProviderDoc)
deriving DecidableEq, Repr

/-- The per-provider dictionary built inside `_serialize_settings`. -/
def serialize_provider (c : AIProviderConfig) : ProviderDoc :=
  ⟨c.enabled, c.api_key, c.base_url, c.model, c.temperature, c.max_tokens,
   c.timeout, c.proxy, c.custom_headers⟩

/-- src/core/ai_config.py `AIConfigManager._serialize_settings`. -/
def serialize_settings (s : AISettings) : SettingsDoc :=
  ⟨s.enabled, s.default_provider.value, s.stream_enabled, s.system_prompt,
   s.max_history_length, s.auto_clear_history,
   s.providers.map (fun nc => (nc.1, serialize_provider nc.2))⟩

/-- The per-provider field assignments inside `_deserialize_settings`. -/
def deserialize_provider (d : ProviderDoc) : AIProviderConfig :=
  ⟨d.enabled, d.api_key, d.base_url, d.model, d.temperature, d.max_tokens,
   d.timeout, d.proxy, d.custom_headers⟩

/-- src/core/ai_config.py `AIConfigManager._deserialize_settings`, mutating a
prior in-memory `base` settings: top-level fields are taken from the document
(`AIProvider(value)` raising on an invalid enum value is `none` here); each
provider already present in `base` is overwritten from the document entry of
the same name when one exists, and document entries naming providers absent
from `base` are ignored. -/
def deserialize_settings (base : AISettings) (d : SettingsDoc) : Option AISettings :=
  match AIProvider.fromValue d.default_provider with
  | none => none
  | some dp =>
      some ⟨d.enabled, dp, d.stream_enabled, d.system_prompt,
            d.max_history_length, d.auto_clear_history,
            base.providers.map (fun nc =>
              match alistFind nc.1 d.providers with
              | some pd => (nc.1, deserialize_provider pd)
              | none => nc)⟩

/-! ## Shared helper lemmas -/

theorem get_default_models_ne_nil (service_type : String) :
    get_default_models service_type ≠ [] := by
  unfold get_default_models
  repeat' split
  all_goals simp

theorem get_models_with_fallback_ne_nil (api_key base_url : String) (t : Nat)
    (fetchResult : List String) :
    get_models_with_fallback api_key base_url t fetchResult ≠ [] := by
  unfold get_models_with_fallback
  split
  · exact get_default_models_ne_nil _
  · split
    · assumption
    · exact get_default_models_ne_nil _

theorem resolve_provider_some (s : AISettings) (p : String) (hp : p ≠ "") :
    resolve_provider s (some p) = p := by
  simp [resolve_provider, hp]

/-! ## C8: first access to a fresh group -/

/-- Claim C8: for every group never accessed before, `get_chat_history`
returns exactly one message, of role "system", whose content is the global
system prompt current at the time of the call. -/
theorem C8_fresh_group_history (s : AISettings) (st : ManagerState) (group : String)
    (h : st group = none) :
    (get_chat_history s st group).1 = [ChatMessage.mk "system" s.system_prompt] := by
  simp [get_chat_history, h]

/-- Witness for C8 at the concrete fresh group "g1" of an empty manager. -/
theorem C8_fresh_group_history_witness :
    (get_chat_history defaultAISettings (fun _ => none) "g1").1 =
      [ChatMessage.mk "system" "你是AI助手，名字叫VictorAI"] :=
  C8_fresh_group_history defaultAISettings (fun _ => none) "g1" rfl

/-! ## C2: validation failure returns text and leaves state untouched -/

/-- Claim C2: when the named provider's config is absent, disabled, or has an
empty credential, `get_ai_response` returns the not-configured string and the
whole history map — in particular the group's history — is exactly what it was
before the call; no user turn is appended. -/
theorem C2_not_configured_no_mutation (s : AISettings) (st : ManagerState)
    (message group p : String) (outcome : Except String (Option String))
    (hp : p ≠ "")
    (hbad : alistFind p s.providers = none ∨
      ∃ cfg, alistFind p s.providers = some cfg ∧
        (cfg.enabled = false ∨ cfg.api_key = "")) :
    get_ai_response s st message group (some p) outcome =
      ("提供商 " ++ p ++ " 未配置或未启用", st) := by
  unfold get_ai_response
  rw [resolve_provider_some s p hp]
  rcases hbad with h | ⟨cfg, hfind, hcfg⟩
  · simp [h]
  · simp [hfind, hcfg]

/-- Witness for C2: provider "demo" has no config in the default settings. -/
theorem C2_not_configured_no_mutation_witness :
    get_ai_response defaultAISettings (fun _ => none) "hi" "g1" (some "demo")
        (Except.ok none) =
      ("提供商 demo 未配置或未启用", fun _ => none) :=
  C2_not_configured_no_mutation defaultAISettings (fun _ => none) "hi" "g1" "demo"
    (Except.ok none) (by decide) (Or.inl (by decide))

/-! ## C5: every client-call exception becomes a returned string -/

/-- Claim C5: for every exception raised by the underlying client call,
`get_ai_response` is total and returns a descriptive failure string — either
the not-configured reply (when validation failed and the call never ran) or
the "AI调用出错" conversion of the raised message. -/
theorem C5_exception_converted_to_string (s : AISettings) (st : ManagerState)
    (message group : String) (provider : Option String) (e : String) :
    (get_ai_response s st message group provider (Except.error e)).1 =
        "提供商 " ++ resolve_provider s provider ++ " 未配置或未启用" ∨
    (get_ai_response s st message group provider (Except.error e)).1 =
        "AI调用出错: " ++ e := by
  rcases h : alistFind (resolve_provider s provider) s.providers with _ | cfg
  · left
    simp [get_ai_response, h]
  · by_cases hc : cfg.enabled = false ∨ cfg.api_key = ""
    · left
      simp [get_ai_response, h, hc]
    · right
      simp [get_ai_response, h, hc]

/-! ## C1: history retention bound (code bug at max_history_length = 0) -/

/-- Settings with `max_history_length = 0`, the failing input of claim C1. -/
def c1BugSettings : AISettings := ⟨true, .deepseek, true, "S", 0, false, []⟩

/-- Claim C1 (failing input): with `max_history_length = 0`, a single
`add_message` on a fresh group leaves a history of length 3 with the system
message duplicated — `history[-(0):]` in the Python trim is the whole list,
so the claimed bound `min(N,L)+1 = 1` and the single retained system message
are both violated.  The spec's invariant (history length at most
`max_history_length + 1`) is the clear intent; the slice is the slip. -/
theorem C1_max_history_zero_violation :
    (add_message c1BugSettings (fun _ => none) "g1" "user" "a") "g1" =
      some [ChatMessage.mk "system" "S", ChatMessage.mk "system" "S",
        ChatMessage.mk "user" "a"] ∧
    (((add_message c1BugSettings (fun _ => none) "g1" "user" "a") "g1").getD
        []).length = 3 := by
  constructor <;> decide

/-- The last `n` elements of a list (the value of Python `xs[-n:]` for
`1 ≤ n ≤ len(xs)`). -/
def lastN (n : Nat) (xs : List α) : List α := xs.drop (xs.length - n)

/-- Supporting law for C1: for every retention bound `L ≥ 1` the trim loop
does satisfy the claimed shape — after any sequence of appends the history is
the original system message followed by the most recent `min N L` appended
messages in order (so the history length is `min N L + 1`).  The claim's
failure is exactly at `L = 0` (see `C1_max_history_zero_violation`). -/
theorem trim_append_fold (L : Int) (hL : 1 ≤ L) (sys : ChatMessage)
    (ms : List ChatMessage) :
    ms.foldl (trim_append L) [sys] =
      sys :: lastN (min ms.length L.toNat) ms := by
  induction ms using List.reverseRecOn with
  | nil => simp [lastN]
  | append_singleton ms m ih =>
      rw [List.foldl_append, List.foldl_cons, List.foldl_nil, ih]
      have hlen : (lastN (min ms.length L.toNat) ms).length =
          min ms.length L.toNat := by
        simp [lastN]
        omega
      by_cases hcase : ms.length < L.toNat
      · have hmin : min ms.length L.toNat = ms.length := by omega
        have hmin2 : min (ms ++ [m]).length L.toNat = (ms ++ [m]).length := by
          simp only [List.length_append, List.length_cons, List.length_nil]
          omega
        have hlast : lastN ms.length ms = ms := by simp [lastN]
        rw [hmin, hlast]
        unfold trim_append
        rw [if_neg]
        · rw [hmin2]
          simp [lastN]
        · simp only [List.length_append, List.length_cons, List.length_nil]
          push_cast
          omega
      · have hmin : min ms.length L.toNat = L.toNat := by omega
        have hmin2 : min (ms ++ [m]).length L.toNat = L.toNat := by
          simp only [List.length_append, List.length_cons, List.length_nil]
          omega
        rw [hmin] at hlen
        rw [hmin, hmin2]
        unfold trim_append
        rw [if_pos]
        · rw [List.cons_append]
          have hdrop2 : (sys :: (lastN L.toNat ms ++ [m])).length -
              (-(-L)).toNat = 2 := by
            simp only [neg_neg, List.length_cons, List.length_append,
              List.length_nil, hlen]
            omega
          unfold pySliceFrom
          rw [if_neg (by omega : ¬ (0:Int) ≤ -L), hdrop2]
          simp only [List.headD_cons]
          rw [show (2:Nat) = 1 + 1 from rfl, ← List.drop_drop]
          simp only [List.drop_succ_cons, List.drop_zero]
          have h1le : 1 ≤ (lastN L.toNat ms).length := by
            rw [hlen]
            omega
          rw [List.drop_append_of_le_length h1le]
          simp only [lastN, List.drop_drop, List.length_append,
            List.length_cons, List.length_nil]
          have hle2 : ms.length + 1 - L.toNat ≤ ms.length := by omega
          have hidx : ms.length - L.toNat + 1 = ms.length + 1 - L.toNat := by
            omega
          rw [hidx]
          rw [List.drop_append_of_le_length hle2]
        · simp only [List.cons_append, List.length_cons, List.length_append,
            List.length_nil, hlen]
          push_cast
          omega

/-! ## C6: static fallback on empty credential or endpoint, never raises -/

/-- Claim C6: with an empty credential or endpoint, `get_models_with_fallback`
returns the static default list of the identity obtained by classifying the
endpoint with the ordered first-match substring rules (empty endpoint and
unmatched endpoints default to the generic OpenAI-compatible list), and it
returns a non-empty list for every input and every network outcome. -/
theorem C6_static_fallback_never_raises :
    (∀ (k : String) (t : Nat) (fr : List String),
        get_models_with_fallback "" "" t fr = get_default_models "openai" ∧
        get_models_with_fallback k "" t fr = get_default_models "openai") ∧
    (∀ (bu : String) (t : Nat) (fr : List String),
        get_models_with_fallback "" bu t fr =
          get_default_models
            (if bu = "" then "openai" else detect_service_type bu)) ∧
    (∀ (ak bu : String) (t : Nat) (fr : List String),
        get_models_with_fallback ak bu t fr ≠ []) := by
  refine ⟨fun k t fr => ⟨?_, ?_⟩, fun bu t fr => ?_, fun ak bu t fr =>
    get_models_with_fallback_ne_nil ak bu t fr⟩
  · simp [get_models_with_fallback]
  · simp [get_models_with_fallback]
  · simp [get_models_with_fallback]

/-! ## C3: cache validity within 300 seconds -/

/-- Claim C3: for a (credential, endpoint) key with no pre-existing cache
entry, two runs of the repository's model-discovery flow (cache check, then
fetch with fallback, then store — `ModelFetchThread.run`) less than 300
seconds apart return the same list: the second run is served from the entry
the first run stored, whatever the second run's network outcome `fr2` is. -/
theorem C3_cache_serves_second_call (c : ModelCacheMap) (t1 t2 : Nat)
    (key url : String) (fr1 fr2 : List String)
    (hfresh : c (get_cache_key key url) = none)
    (hlt : t2 - t1 < 300) :
    (fetch_models_job (fetch_models_job c t1 key url fr1).2 t2 key url fr2).1 =
      (fetch_models_job c t1 key url fr1).1 := by
  have hM := get_models_with_fallback_ne_nil key url 10 fr1
  have h1 : get_cached_models c t1 key url = none := by
    simp [get_cached_models, hfresh]
  have hjob1 : fetch_models_job c t1 key url fr1 =
      (get_models_with_fallback key url 10 fr1,
        cache_models c t1 key url (get_models_with_fallback key url 10 fr1)) := by
    simp [fetch_models_job, h1, fetch_models_live, hM]
  rw [hjob1]
  have h2 : get_cached_models
      (cache_models c t1 key url (get_models_with_fallback key url 10 fr1))
      t2 key url = some (get_models_with_fallback key url 10 fr1) := by
    simp [get_cached_models, cache_models, hlt]
  simp [fetch_models_job, h2, hM]

/-- Witness for C3: live fetch at t=100 returns ["model-x"]; at t=250 the
network is blocked (fetch result empty) yet the flow returns the cached
result of the first call. -/
theorem C3_cache_serves_second_call_witness :
    (fetch_models_job
        (fetch_models_job (fun _ => none) 100 "sk-abcdefgh" "https://example.com"
          ["model-x"]).2
        250 "sk-abcdefgh" "https://example.com" []).1 =
      (fetch_models_job (fun _ => none) 100 "sk-abcdefgh" "https://example.com"
        ["model-x"]).1 :=
  C3_cache_serves_second_call (fun _ => none) 100 250 "sk-abcdefgh"
    "https://example.com" ["model-x"] [] rfl (by decide)

/-! ## C7: emulated streaming of the divergent (Gemini) variant -/

theorem gemini_stream_loop_cons (w : String) (rest : List String) (i total : Nat) :
    gemini_stream_loop (w :: rest) i total =
      StreamEvent.callback (w ++ (if i < total - 1 then " " else "")) ::
      StreamEvent.yielded (w ++ (if i < total - 1 then " " else "")) ::
      gemini_stream_loop rest (i + 1) total := rfl

theorem gemini_stream_loop_spec (ws : List String) :
    ∀ i : Nat, gemini_stream_loop ws i (i + ws.length) =
      ((specStreamFragsAux ws).map
        (fun c => [StreamEvent.callback c, StreamEvent.yielded c])).flatten := by
  induction ws with
  | nil => intro i; rfl
  | cons w rest ih =>
      intro i
      cases rest with
      | nil =>
          have hcond : ¬ (i < i + [w].length - 1) := by
            simp only [List.length_cons, List.length_nil]
            omega
          rw [gemini_stream_loop_cons, if_neg hcond]
          simp [gemini_stream_loop, specStreamFragsAux, String.append_empty]
      | cons w2 rest2 =>
          have hcond : i < i + (w :: w2 :: rest2).length - 1 := by
            simp only [List.length_cons]
            omega
          have htot : i + (w :: w2 :: rest2).length =
              (i + 1) + (w2 :: rest2).length := by
            simp only [List.length_cons]
            omega
          rw [gemini_stream_loop_cons, if_pos hcond, htot, ih (i + 1)]
          rfl

/-- Claim C7: the divergent variant's emulated streaming, applied to the full
completion text obtained first, produces exactly — for each whitespace-split
word in order, with a single trailing space except on the last word — one
callback invocation immediately followed by the yield of the same fragment. -/
theorem C7_gemini_stream_emulation (content : String) :
    gemini_stream_events content =
      ((specStreamFragments content).map
        (fun c => [StreamEvent.callback c, StreamEvent.yielded c])).flatten := by
  have h := gemini_stream_loop_spec (pySplitWs content) 0
  simpa [gemini_stream_events, specStreamFragments] using h

/-! ## C4: abandoned stream records no assistant turn -/

/-- Settings whose "deepseek" provider is enabled with a credential: the
validation-passing configuration used by the C4 and C10 witnesses. -/
def demoConfiguredSettings : AISettings :=
  ⟨true, .deepseek, true, "S", 10, false,
   [("deepseek",
     ⟨true, "sk-test", "https://api.deepseek.com/v1", "deepseek-chat",
      0.7, 2000, 30, none, none⟩)]⟩

/-- Claim C4: when the consumer of `get_ai_response_stream` abandons the
fragment sequence with at least one fragment unconsumed, the group's history
holds no assistant turn (only the user turn, or nothing at all when the
generator was never started); the accumulated assistant turn is appended only
once the consumer has driven the stream past its last fragment. -/
theorem C4_abandoned_stream_no_assistant (s : AISettings) (st : ManagerState)
    (message group p : String) (cfg : AIProviderConfig)
    (chunks : List String) (streamErr : Option String)
    (hp : p ≠ "") (hfind : alistFind p s.providers = some cfg)
    (hen : cfg.enabled = true) (hkey : cfg.api_key ≠ "") :
    (∀ consumed, consumed < chunks.length →
      (get_ai_response_stream s st message group (some p) chunks streamErr
          consumed).2 =
        if consumed = 0 then st else add_message s st group "user" message) ∧
    (∀ consumed, chunks.length < consumed → streamErr = none →
      String.join chunks ≠ "" →
      (get_ai_response_stream s st message group (some p) chunks streamErr
          consumed).2 =
        add_message s (add_message s st group "user" message) group "assistant"
          (String.join chunks)) := by
  have hres : resolve_provider s (some p) = p := resolve_provider_some s p hp
  have hcond : ¬(cfg.enabled = false ∨ cfg.api_key = "") := by
    simp [hen, hkey]
  constructor
  · intro consumed hlt
    by_cases h0 : consumed = 0
    · simp [get_ai_response_stream, h0]
    · have hle : consumed ≤ chunks.length := le_of_lt hlt
      simp [get_ai_response_stream, h0, hres, hfind, hcond, hle]
  · intro consumed hgt herr hne
    have h0 : ¬ consumed = 0 := by omega
    have hnle : ¬ consumed ≤ chunks.length := by omega
    simp [get_ai_response_stream, h0, hres, hfind, hcond, hnle, herr, hne]

/-- Witness for C4: five fragments, consumer stops after the first; the final
state is exactly the user turn appended, with no assistant turn. -/
theorem C4_abandoned_stream_no_assistant_witness :
    (get_ai_response_stream demoConfiguredSettings (fun _ => none) "hi" "g1"
        (some "deepseek") ["a", "b", "c", "d", "e"] none 1).2 =
      add_message demoConfiguredSettings (fun _ => none) "g1" "user" "hi" :=
  (C4_abandoned_stream_no_assistant demoConfiguredSettings (fun _ => none) "hi"
      "g1" "deepseek"
      ⟨true, "sk-test", "https://api.deepseek.com/v1", "deepseek-chat",
       0.7, 2000, 30, none, none⟩
      ["a", "b", "c", "d", "e"] none (by decide) rfl rfl
      (by decide)).1 1 (by decide)

/-! ## C10: failed provider call keeps the user turn, adds no assistant turn -/

theorem trim_append_getLast (L : Int) (hL : 0 ≤ L) (h : List ChatMessage)
    (m : ChatMessage) :
    (trim_append L h m).getLast? = some m := by
  unfold trim_append
  split
  · unfold pySliceFrom
    by_cases hL0 : (0 : Int) ≤ -L
    · have hzero : L = 0 := by omega
      subst hzero
      rw [if_pos hL0]
      simp only [neg_zero, Int.toNat_zero, List.drop_zero]
      rw [← List.cons_append, List.getLast?_concat]
    · rw [if_neg hL0]
      have hk : (h ++ [m]).length - (-(-L)).toNat ≤ h.length := by
        simp only [neg_neg, List.length_append, List.length_cons,
          List.length_nil]
        omega
      rw [List.drop_append_of_le_length hk, ← List.cons_append,
        List.getLast?_concat]
  · exact List.getLast?_concat _

theorem add_message_apply_group (s : AISettings) (st : ManagerState)
    (group role content : String) :
    add_message s st group role content group =
      some (trim_append s.max_history_length (get_chat_history s st group).1
        (ChatMessage.mk role content)) := by
  simp [add_message]

/-- Claim C10: when validation passes and the client call then raises, the
user turn appended before the call stays in the group's history and no
assistant turn is added — the resulting state is exactly the user-turn append
of the prior state, and (for a nonnegative retention bound) the group's
history ends with that trailing user message. -/
theorem C10_failed_call_keeps_user_turn (s : AISettings) (st : ManagerState)
    (message group p : String) (cfg : AIProviderConfig) (e : String)
    (hp : p ≠ "") (hfind : alistFind p s.providers = some cfg)
    (hen : cfg.enabled = true) (hkey : cfg.api_key ≠ "")
    (hL : 0 ≤ s.max_history_length) :
    (get_ai_response s st message group (some p) (Except.error e)).2 =
        add_message s st group "user" message ∧
    (((get_ai_response s st message group (some p) (Except.error e)).2
        group).getD []).getLast? = some (ChatMessage.mk "user" message) := by
  have hres : resolve_provider s (some p) = p := resolve_provider_some s p hp
  have hcond : ¬(cfg.enabled = false ∨ cfg.api_key = "") := by
    simp [hen, hkey]
  have hstate : (get_ai_response s st message group (some p)
      (Except.error e)).2 = add_message s st group "user" message := by
    simp [get_ai_response, hres, hfind, hcond]
  refine ⟨hstate, ?_⟩
  rw [hstate, add_message_apply_group]
  simpa using trim_append_getLast s.max_history_length hL _ _

/-- Witness for C10: the failed exchange on group "g1" leaves exactly the
trailing user turn. -/
theorem C10_failed_call_keeps_user_turn_witness :
    (get_ai_response demoConfiguredSettings (fun _ => none) "hi" "g1"
        (some "deepseek") (Except.error "boom")).2 =
      add_message demoConfiguredSettings (fun _ => none) "g1" "user" "hi" ∧
    (((get_ai_response demoConfiguredSettings (fun _ => none) "hi" "g1"
        (some "deepseek") (Except.error "boom")).2 "g1").getD []).getLast? =
      some (ChatMessage.mk "user" "hi") :=
  C10_failed_call_keeps_user_turn demoConfiguredSettings (fun _ => none) "hi"
    "g1" "deepseek"
    ⟨true, "sk-test", "https://api.deepseek.com/v1", "deepseek-chat",
     0.7, 2000, 30, none, none⟩
    "boom" (by decide) rfl rfl (by decide) (by decide)

/-! ## C9: settings serialization round trip -/

theorem AIProvider.fromValue_value (v : AIProvider) :
    AIProvider.fromValue v.value = some v := by
  cases v <;> rfl

theorem deserialize_serialize_provider (c : AIProviderConfig) :
    deserialize_provider (serialize_provider c) = c := rfl

theorem alistFind_cons_self (k : String) (v : α) (l : List (String × α)) :
    alistFind k ((k, v) :: l) = some v := by
  simp [alistFind]

theorem alistFind_cons_ne (k a : String) (v : α) (l : List (String × α))
    (h : a ≠ k) :
    alistFind k ((a, v) :: l) = alistFind k l := by
  simp [alistFind, h]

theorem providers_roundtrip :
    ∀ (base ps : List (String × AIProviderConfig)),
      base.map Prod.fst = ps.map Prod.fst →
      (ps.map Prod.fst).Nodup →
      base.map (fun nc =>
        match alistFind nc.1 (ps.map (fun mc => (mc.1, serialize_provider mc.2))) with
        | some pd => (nc.1, deserialize_provider pd)
        | none => nc) = ps := by
  intro base
  induction base with
  | nil =>
      intro ps hnames _
      cases ps with
      | nil => rfl
      | cons p pt => simp at hnames
  | cons b bt ih =>
      intro ps hnames hnodup
      cases ps with
      | nil => simp at hnames
      | cons p pt =>
          simp only [List.map_cons, List.cons.injEq] at hnames
          obtain ⟨hb, ht⟩ := hnames
          simp only [List.map_cons, List.nodup_cons] at hnodup
          obtain ⟨hpnotin, hnodup2⟩ := hnodup
          simp only [List.map_cons]
          congr 1
          · rw [hb, alistFind_cons_self]
            simp [deserialize_serialize_provider, hb]
          · have hskip : ∀ nc ∈ bt,
                (match alistFind nc.1
                    ((p.1, serialize_provider p.2) ::
                      pt.map (fun mc => (mc.1, serialize_provider mc.2))) with
                  | some pd => (nc.1, deserialize_provider pd)
                  | none => nc) =
                (match alistFind nc.1
                    (pt.map (fun mc => (mc.1, serialize_provider mc.2))) with
                  | some pd => (nc.1, deserialize_provider pd)
                  | none => nc) := by
              intro nc hnc
              have hmem : nc.1 ∈ pt.map Prod.fst := by
                rw [← ht]
                exact List.mem_map_of_mem Prod.fst hnc
              have hne : p.1 ≠ nc.1 := fun hcontra => hpnotin (hcontra ▸ hmem)
              rw [alistFind_cons_ne _ _ _ _ hne]
            rw [List.map_congr_left hskip]
            exact ih pt ht hnodup2

/-- Claim C9: serializing an `AISettings` to the persisted document shape and
deserializing that document back over a freshly defaulted settings object (the
state `load_config` deserializes into) restores every field — top-level flags,
default provider, prompt, history bound, and every per-provider field
including absent optional `proxy`/`custom_headers` — provided the settings
carry the five built-in provider names the default store seeds (the document
can only update providers already present in the target). -/
theorem C9_settings_roundtrip (s : AISettings)
    (hnames : s.providers.map Prod.fst = defaultProviders.map Prod.fst) :
    deserialize_settings defaultAISettings (serialize_settings s) = some s := by
  unfold deserialize_settings serialize_settings
  rw [AIProvider.fromValue_value]
  have hnodup : (s.providers.map Prod.fst).Nodup := by
    rw [hnames]
    decide
  have hbase : defaultAISettings.providers.map Prod.fst =
      s.providers.map Prod.fst := by
    rw [hnames]
    rfl
  have hprov := providers_roundtrip defaultAISettings.providers s.providers
    hbase hnodup
  simp only [hprov]

/-- Witness for C9: a settings value with all five providers, mixed enabled
flags, credentials, a populated proxy, populated custom headers, and absent
optional fields, survives the round trip unchanged. -/
theorem C9_settings_roundtrip_witness :
    deserialize_settings defaultAISettings (serialize_settings
      ⟨false, .gemini, false, "自定义提示词", 5, true,
       [("deepseek",
         ⟨true, "sk-d", "https://api.deepseek.com/v1", "deepseek-chat",
          0.5, 1000, 20, some [("http", "http://127.0.0.1:7890")], none⟩),
        ("gemini",
         ⟨true, "g-key", "https://generativelanguage.googleapis.com/v1beta",
          "gemini-1.5-pro", 0.9, 4000, 60, none, some [("X-Custom", "1")]⟩),
        ("qianwen",
         ⟨false, "", "https://dashscope.aliyuncs.com/compatible-mode/v1",
          "qwen-turbo", 0.7, 2000, 30, none, none⟩),
        ("openai",
         ⟨false, "", "https://api.openai.com/v1", "gpt-3.5-turbo",
          0.7, 2000, 30, none, none⟩),
        ("newapi",
         ⟨false, "", "", "gpt-3.5-turbo", 0.7, 2000, 30, none, none⟩)]⟩) =
      some
      ⟨false, .gemini, false, "自定义提示词", 5, true,
       [("deepseek",
         ⟨true, "sk-d", "https://api.deepseek.com/v1", "deepseek-chat",
          0.5, 1000, 20, some [("http", "http://127.0.0.1:7890")], none⟩),
        ("gemini",
         ⟨true, "g-key", "https://generativelanguage.googleapis.com/v1beta",
          "gemini-1.5-pro", 0.9, 4000, 60, none, some [("X-Custom", "1")]⟩),
        ("qianwen",
         ⟨false, "", "https://dashscope.aliyuncs.com/compatible-mode/v1",
          "qwen-turbo", 0.7, 2000, 30, none, none⟩),
        ("openai",
         ⟨false, "", "https://api.openai.com/v1", "gpt-3.5-turbo",
          0.7, 2000, 30, none, none⟩),
        ("newapi",
         ⟨false, "", "", "gpt-3.5-turbo", 0.7, 2000, 30, none, none⟩)]⟩ :=
  C9_settings_roundtrip _ (by decide)

end WeChatAI
